import Mathlib

/-!
Verification of the rate-limiting/retry HTTP request core and the Entrez
History session manager of the Pubmed-MCP-Advanced server.

Shallow embedding conventions:
* wall-clock instants, token counts and delays are rationals (`ℚ`), standing
  in for Python floats with exact arithmetic;
* the token bucket (`src/utils/rate_limiter.py`, class `RateLimiter`) is a
  record of its four mutable fields; `acquire` is a state transformer that
  additionally reports how long the caller is suspended;
* the retry policy (`RetryHandler`) is an immutable record with a pure delay
  function;
* the request loop (`src/clients/base.py`, `BaseClient._request`) is driven by
  an injected transport `Nat → TransportResult` giving the outcome of each
  HTTP attempt, and produces a trace recording limiter acquisitions, HTTP
  attempts, backoff waits, and the final outcome;
* Python exceptions are the inductive `PyError`; keyword-argument calls of the
  error-class constructors in `src/utils/error_handler.py` are modelled by
  `kwCall`, which checks the passed keyword names against the accepted
  parameter names of the target `__init__` and raises `TypeError` on a
  mismatch, exactly as the Python runtime does;
* the session manager (`src/clients/session_manager.py`) is a record of
  `web_env`, the step list and the step counter; each operation takes the
  injected server response for the call it issues and returns the new state,
  the list of network calls actually made, and the Python outcome.
-/

namespace PubmedMCP

/-! ### Token-bucket limiter (`src/utils/rate_limiter.py`, `RateLimiter`) -/

/-- Mutable state of `RateLimiter`: `max_requests` (capacity), `window`
(seconds), `tokens` (fractional units available), `last_update` (monotonic
clock reading of the last refill). -/
structure RateLimiter where
  max_requests : ℚ
  window : ℚ
  tokens : ℚ
  last_update : ℚ
  deriving Repr, DecidableEq

/-- Constructor `RateLimiter.__init__`: a full bucket whose clock starts at
the creation instant `now`. -/
def RateLimiter.init (max_requests : ℚ) (window : ℚ) (now : ℚ) : RateLimiter :=
  { max_requests := max_requests, window := window,
    tokens := max_requests, last_update := now }

/-- Refill step at instant `now`, as written at the top of
`RateLimiter.acquire`: `tokens = min(max_requests, tokens + elapsed *
(max_requests / window))`, then `last_update = now`. Also the body of the
`available_tokens` property. -/
def RateLimiter.refill (rl : RateLimiter) (now : ℚ) : RateLimiter :=
  { rl with
    tokens := min rl.max_requests
      (rl.tokens + (now - rl.last_update) * (rl.max_requests / rl.window)),
    last_update := now }

/-- Read-only property `available_tokens`: the token count a refill at `now`
would produce, without mutating the state. -/
def RateLimiter.available_tokens (rl : RateLimiter) (now : ℚ) : ℚ :=
  min rl.max_requests
    (rl.tokens + (now - rl.last_update) * (rl.max_requests / rl.window))

/-- `RateLimiter.acquire` at instant `now`: refill, then either suspend for
`(1 - tokens) * (window / max_requests)` and set `tokens = 0`, or consume one
token immediately. Returns the post-state and the suspension duration
(`0` when no wait happened). -/
def RateLimiter.acquire (rl : RateLimiter) (now : ℚ) : RateLimiter × ℚ :=
  let r := rl.refill now
  if r.tokens < 1 then
    ({ r with tokens := 0 }, (1 - r.tokens) * (r.window / r.max_requests))
  else
    ({ r with tokens := r.tokens - 1 }, 0)

/-- `RateLimiter.update_limit`: replaces `max_requests` in place, leaving
`tokens` untouched. -/
def RateLimiter.update_limit (rl : RateLimiter) (new_limit : ℚ) : RateLimiter :=
  { rl with max_requests := new_limit }

/-- Modelled from the spec (section 4.1), for comparison with the code's
`RateLimiter.acquire`: refill `available = min(capacity, available + (now -
last_refill_instant) * capacity / window_seconds)` and set
`last_refill_instant = now`; if `available < 1` suspend for
`(1 - available) * window_seconds / capacity` and set `available = 0`,
otherwise decrement `available` by 1 with no wait. -/
def acquireSpec (rl : RateLimiter) (now : ℚ) : RateLimiter × ℚ :=
  let available := min rl.max_requests
    (rl.tokens + (now - rl.last_update) * rl.max_requests / rl.window)
  if available < 1 then
    ({ rl with tokens := 0, last_update := now },
      (1 - available) * rl.window / rl.max_requests)
  else
    ({ rl with tokens := available - 1, last_update := now }, 0)

/-! ### Retry/backoff policy (`src/utils/rate_limiter.py`, `RetryHandler`) -/

/-- Immutable configuration of `RetryHandler`. -/
structure RetryHandler where
  max_retries : Nat
  base_delay : ℚ
  backoff_factor : ℚ
  max_delay : ℚ
  deriving Repr, DecidableEq

/-- `RetryHandler.get_delay`: `min(base_delay * backoff_factor ** attempt,
max_delay)`. -/
def RetryHandler.get_delay (rh : RetryHandler) (attempt : Nat) : ℚ :=
  min (rh.base_delay * rh.backoff_factor ^ attempt) rh.max_delay

/-- The constructor defaults of `RetryHandler`: `max_retries=3`,
`base_delay=1.0`, `backoff_factor=2.0`, `max_delay=60.0`. -/
def defaultRetryHandler : RetryHandler :=
  { max_retries := 3, base_delay := 1, backoff_factor := 2, max_delay := 60 }

/-! ### Error taxonomy (`src/utils/error_handler.py`) -/

/-- Python exceptions raised by the core. The first six are the classes of
`error_handler.py` (each shown with the extra attributes its `__init__`
stores); `typeError` is the built-in `TypeError` the interpreter raises when a
call passes a keyword argument the callee does not accept. -/
inductive PyError where
  | pubMedError (message : String) (details : Option String)
  | rateLimitError (message : String) (retry_after : Option ℚ)
  | invalidQueryError (message : String) (query : Option String) (suggestion : Option String)
  | articleNotFoundError (message : String) (identifier : Option String) (id_type : Option String)
  | serviceUnavailableError (message : String) (retry_after : Option ℚ)
  | networkError (message : String) (original_error : Option String)
  | typeError (message : String)
  deriving Repr, DecidableEq

/-- Keyword parameter names accepted by `PubMedError.__init__`. -/
def pubMedErrorKwargs : List String := ["message", "details"]

/-- Keyword parameter names accepted by `RateLimitError.__init__`. -/
def rateLimitErrorKwargs : List String := ["message", "retry_after"]

/-- Keyword parameter names accepted by `InvalidQueryError.__init__` (note:
no `details`). -/
def invalidQueryErrorKwargs : List String := ["message", "query", "suggestion"]

/-- Keyword parameter names accepted by `ArticleNotFoundError.__init__`
(note: no `details`). -/
def articleNotFoundErrorKwargs : List String := ["message", "identifier", "id_type"]

/-- Keyword parameter names accepted by `ServiceUnavailableError.__init__`. -/
def serviceUnavailableErrorKwargs : List String := ["message", "retry_after"]

/-- Python call semantics for a keyword-argument constructor call: if any
passed keyword is not among the accepted parameter names, the call raises
`TypeError: __init__ got an unexpected keyword argument`; otherwise it
returns the constructed object. -/
def kwCall (accepted passed : List String) (constructed : PyError) :
    Except PyError PyError :=
  match passed.find? (fun k => !(accepted.contains k)) with
  | some k =>
      .error (.typeError ("__init__ got an unexpected keyword argument " ++ k))
  | none => .ok constructed

/-- `map_http_status_to_error(status_code, response_text)`: the Python body
builds the whole `error_mapping` dict literal first — constructing every
entry — and only then looks up `status_code`. The 400 entry is
`InvalidQueryError(message=…, details=response_text)` and the 404 entry is
`ArticleNotFoundError(message=…, details=response_text)`; neither `__init__`
accepts a `details` keyword, so construction of the dict raises `TypeError`
before any lookup, on every call. The `Except` short-circuits in
construction order, as the interpreter does. -/
def map_http_status_to_error (status_code : Int) (response_text : Option String) :
    Except PyError PyError := do
  let e400 ← kwCall invalidQueryErrorKwargs ["message", "details"]
    (.invalidQueryError "Bad request - check query syntax" none none)
  let e401 ← kwCall pubMedErrorKwargs ["message", "details"]
    (.pubMedError "Authentication error - check API key" response_text)
  let e404 ← kwCall articleNotFoundErrorKwargs ["message", "details"]
    (.articleNotFoundError "Resource not found" none none)
  let e429 ← kwCall rateLimitErrorKwargs ["message", "retry_after"]
    (.rateLimitError "Rate limit exceeded - retry with backoff" (some 60))
  let e500 ← kwCall serviceUnavailableErrorKwargs ["message", "retry_after"]
    (.serviceUnavailableError "NCBI internal server error" (some 60))
  let e502 ← kwCall serviceUnavailableErrorKwargs ["message", "retry_after"]
    (.serviceUnavailableError "NCBI gateway error" (some 30))
  let e503 ← kwCall serviceUnavailableErrorKwargs ["message", "retry_after"]
    (.serviceUnavailableError "NCBI service temporarily unavailable" (some 60))
  let e504 ← kwCall serviceUnavailableErrorKwargs ["message", "retry_after"]
    (.serviceUnavailableError "NCBI gateway timeout" (some 30))
  let table : List (Int × PyError) :=
    [(400, e400), (401, e401), (404, e404), (429, e429),
     (500, e500), (502, e502), (503, e503), (504, e504)]
  match table.find? (fun p => p.1 == status_code) with
  | some p => return p.2
  | none =>
      return .pubMedError ("HTTP error " ++ toString status_code) response_text

/-- Modelled from the spec (sections 4.3 and 7) and the docstring of
`map_http_status_to_error`, for comparison with the code: the classification
the mapping is documented to return — 400 a malformed-query error, 401 an
auth error, 404 a not-found error, anything else a generic error — each
carrying the (already truncated) response text as diagnostic context. -/
def classifyClientErrorSpec (status_code : Int) (response_text : Option String) :
    PyError :=
  if status_code == 400 then
    .invalidQueryError "Bad request - check query syntax" none none
  else if status_code == 401 then
    .pubMedError "Authentication error - check API key" response_text
  else if status_code == 404 then
    .articleNotFoundError "Resource not found" none none
  else
    .pubMedError ("HTTP error " ++ toString status_code) response_text

/-! ### Request core (`src/clients/base.py`, `BaseClient._request`) -/

/-- Outcome of one HTTP attempt as seen from inside the `try` block: a
response with its status code, the numeric value of its `Retry-After` header
when present, and its body text; or an `httpx.TimeoutException`; or another
`httpx.RequestError`. -/
inductive TransportResult where
  | response (status : Int) (retryAfterHeader : Option ℚ) (text : String)
  | timeout (msg : String)
  | requestError (msg : String)
  deriving Repr, DecidableEq

/-- Decision taken by one iteration of the `_request` loop after the HTTP
attempt: wait `d` seconds and continue, fail with a raised exception, or
return the response (its status) to the caller. -/
inductive StepOutcome where
  | retryAfterWait (d : ℚ)
  | fail (e : PyError)
  | success (status : Int)
  deriving Repr, DecidableEq

/-- Classification of one attempt's transport result, following
`BaseClient._request` line by line: 429 retries via `retry_handler.wait`
while `retry_on_rate_limit` holds and attempts remain, else raises
`RateLimitError` with `Retry-After` (default 60); status ≥ 500 retries while
attempts remain, else raises `ServiceUnavailableError(retry_after=60)`;
status ≥ 400 raises whatever `map_http_status_to_error(status,
response.text[:500])` produces (the raised `TypeError` propagates when the
mapping itself fails); anything else is returned. Timeouts and request
errors retry while attempts remain, else raise `NetworkError`. -/
def attemptStep (rh : RetryHandler) (retry_on_rate_limit : Bool) (attempt : Nat)
    (res : TransportResult) : StepOutcome :=
  match res with
  | .response status hdr text =>
      if status == 429 then
        if retry_on_rate_limit ∧ attempt < rh.max_retries then
          .retryAfterWait (rh.get_delay attempt)
        else
          .fail (.rateLimitError "Rate limit exceeded after retries"
            (some (hdr.getD 60)))
      else if 500 ≤ status then
        if attempt < rh.max_retries then
          .retryAfterWait (rh.get_delay attempt)
        else
          .fail (.serviceUnavailableError ("Server error: " ++ toString status)
            (some 60))
      else if 400 ≤ status then
        match map_http_status_to_error status (some (text.take 500)) with
        | .error raisedDuringMapping => .fail raisedDuringMapping
        | .ok mapped => .fail mapped
      else
        .success status
  | .timeout msg =>
      if attempt < rh.max_retries then .retryAfterWait (rh.get_delay attempt)
      else .fail (.networkError "Request timed out" (some msg))
  | .requestError msg =>
      if attempt < rh.max_retries then .retryAfterWait (rh.get_delay attempt)
      else .fail (.networkError "Network request failed" (some msg))

/-- Trace of one `_request` call: how many times the rate limiter was
acquired, how many HTTP attempts were issued, the backoff waits performed in
order, and the final outcome (`.ok status` for a returned response,
`.error e` for a raised exception). -/
structure RequestTrace where
  acquires : Nat
  attempts : Nat
  waits : List ℚ
  outcome : Except PyError Int
  deriving Repr

/-- Iterations of the `for attempt in range(max_retries + 1)` loop, with
`fuel` the number of iterations the range still allows. Every iteration
first awaits `rate_limiter.acquire()`, then issues the HTTP attempt. When the
range is exhausted the function falls through to
`raise PubMedError("Max retries exceeded")`. -/
def requestGo (rh : RetryHandler) (transport : Nat → TransportResult)
    (retry_on_rate_limit : Bool) :
    Nat → Nat → Nat → Nat → List ℚ → RequestTrace
  | 0, acq, att, _, waits =>
      { acquires := acq, attempts := att, waits := waits,
        outcome := .error (.pubMedError "Max retries exceeded" none) }
  | fuel + 1, acq, att, attempt, waits =>
      match attemptStep rh retry_on_rate_limit attempt (transport attempt) with
      | .retryAfterWait d =>
          requestGo rh transport retry_on_rate_limit fuel
            (acq + 1) (att + 1) (attempt + 1) (waits ++ [d])
      | .fail e =>
          { acquires := acq + 1, attempts := att + 1, waits := waits,
            outcome := .error e }
      | .success status =>
          { acquires := acq + 1, attempts := att + 1, waits := waits,
            outcome := .ok status }

/-- `BaseClient._request`: run the retry loop over `max_retries + 1`
iterations, the outcome of attempt `i` given by `transport i`. -/
def runRequest (rh : RetryHandler) (transport : Nat → TransportResult)
    (retry_on_rate_limit : Bool) : RequestTrace :=
  requestGo rh transport retry_on_rate_limit (rh.max_retries + 1) 0 0 0 []

/-- Transport that answers the first attempt with 429 carrying
`Retry-After: 5` and every later attempt with 200. -/
def transport429Then200 : Nat → TransportResult := fun n =>
  if n == 0 then .response 429 (some 5) "slow down" else .response 200 none "ok"

/-- Transport that answers every attempt with 503. -/
def transport503 : Nat → TransportResult := fun _ =>
  .response 503 none "Service Unavailable"

/-! ### History session manager (`src/clients/session_manager.py`) -/

/-- Python values stored in a step's free-form `parameters` dict. -/
inductive PyVal where
  | str (s : String)
  | int (n : Int)
  | none_
  deriving Repr, DecidableEq

/-- Python truthiness of an optional string: `None` and `""` are falsy. -/
def strTruthy : Option String → Bool
  | none => false
  | some s => !(s == "")

/-- Python truthiness of an optional int: `None` and `0` are falsy. -/
def intTruthy : Option Int → Bool
  | none => false
  | some n => !(n == 0)

/-- Dict value recording an `Optional[str]` parameter. -/
def pyOfOptStr : Option String → PyVal
  | none => .none_
  | some s => .str s

/-- Dict value recording an `Optional[int]` parameter. -/
def pyOfOptInt : Option Int → PyVal
  | none => .none_
  | some n => .int n

/-- Dataclass `PipelineStep`. The Python annotation of `query_key` is `str`,
but dataclasses do not enforce annotations at runtime and `add_search_step`
stores `result.get("query_key")`, which may be `None`; the field is therefore
an `Option String` here. -/
structure PipelineStep where
  step_number : Nat
  operation : String
  database : String
  query_key : Option String
  result_count : Nat
  parameters : List (String × PyVal)
  deriving Repr, DecidableEq

/-- Mutable state of `SessionManager`: `web_env`, the ordered step list, and
the private step counter. -/
structure SessionManager where
  web_env : Option String
  steps : List PipelineStep
  step_counter : Nat
  deriving Repr, DecidableEq

/-- State established by `SessionManager.__init__` and restored by
`reset()`. -/
def SessionManager.initial : SessionManager :=
  { web_env := none, steps := [], step_counter := 0 }

/-- `SessionManager.reset`: clears `web_env`, the step list and the counter. -/
def SessionManager.reset (_m : SessionManager) : SessionManager :=
  SessionManager.initial

/-- Parsed ESearch response as returned by the injected client's `search`:
each field is `result.get(...)`, absent keys giving `None` (count defaults
to 0 and is kept as the parsed natural number). -/
structure SearchResult where
  web_env : Option String
  query_key : Option String
  count : Nat
  deriving Repr, DecidableEq

/-- One linkset of a parsed ELink response (`{"ids": [...]}`). -/
structure LinkSet where
  ids : List Nat
  deriving Repr, DecidableEq

/-- Parsed ELink response (`{"linksets": [...]}`). -/
structure LinkResult where
  linksets : List LinkSet
  deriving Repr, DecidableEq

/-- Network call issued through the injected E-utilities client. -/
inductive NetworkCall where
  | search (db query : String) (usehistory : Bool)
  | link (dbfrom db cmd : String) (query_key : Option String)
      (web_env : Option String) (linkname : Option String)
  deriving Repr, DecidableEq

/-- `SessionManager.start_session(db, query)` with the server's reply to the
issued search injected as `result`. Python assigns `self.web_env =
result.get("web_env")` before validating, so the handle survives a failed
validation; the step is only appended (and the counter only incremented)
when both the handle and the query key are truthy. Returns the new state,
the network calls made, and the Python outcome. -/
def SessionManager.start_session (m : SessionManager) (db query : String)
    (result : SearchResult) :
    SessionManager × List NetworkCall × Except PyError PipelineStep :=
  let calls := [NetworkCall.search db query true]
  let m := { m with web_env := result.web_env }
  let query_key := result.query_key
  if !(strTruthy m.web_env) || !(strTruthy query_key) then
    (m, calls,
      .error (.pubMedError "Failed to start session: no History data returned" none))
  else
    let counter := m.step_counter + 1
    let step : PipelineStep :=
      { step_number := counter, operation := "search", database := db,
        query_key := query_key, result_count := result.count,
        parameters := [("query", .str query)] }
    ({ m with steps := m.steps ++ [step], step_counter := counter },
      calls, .ok step)

/-- `SessionManager.add_search_step(db, query, combine_with,
combine_operator)` with the server's reply injected as `result`. An idle
session degrades to `start_session`; an active one sends the (possibly
combined) query, updates `web_env` only if the reply carries a truthy one,
and appends a step with the reply's `query_key` — unvalidated, unlike
`start_session`. -/
def SessionManager.add_search_step (m : SessionManager) (db query : String)
    (combine_with : Option String) (combine_operator : String)
    (result : SearchResult) :
    SessionManager × List NetworkCall × Except PyError PipelineStep :=
  if !(strTruthy m.web_env) then
    m.start_session db query result
  else
    let full_query :=
      if strTruthy combine_with then
        "#" ++ combine_with.getD "" ++ " " ++ combine_operator ++ " (" ++ query ++ ")"
      else query
    let calls := [NetworkCall.search db full_query true]
    let m := if strTruthy result.web_env then { m with web_env := result.web_env } else m
    let query_key := result.query_key
    let counter := m.step_counter + 1
    let step : PipelineStep :=
      { step_number := counter, operation := "search", database := db,
        query_key := query_key, result_count := result.count,
        parameters := [("query", .str query),
          ("combined_with", pyOfOptStr combine_with),
          ("operator", .str combine_operator)] }
    ({ m with steps := m.steps ++ [step], step_counter := counter },
      calls, .ok step)

/-- `SessionManager.add_link_step(from_db, to_db, link_name, from_step)` with
the server's reply injected as `result`. Guard failures (`no active
session`, `Step N not found`, `No previous steps`) raise before any network
call and leave the state untouched. On success the new step's query key is
synthesized locally as `str(len(self.steps) + 1)` and its count is the total
number of ids across the reply's linksets. Note `if from_step:` is a Python
truthiness test, so `from_step=0` behaves like `None`. -/
def SessionManager.add_link_step (m : SessionManager) (from_db to_db : String)
    (link_name : Option String) (from_step : Option Int)
    (result : LinkResult) :
    SessionManager × List NetworkCall × Except PyError PipelineStep :=
  if !(strTruthy m.web_env) then
    (m, [], .error (.pubMedError "Cannot add link step: no active session" none))
  else
    let resolved : Except PyError (Option String) :=
      if intTruthy from_step then
        match m.steps.find? (fun s => (s.step_number : Int) == from_step.getD 0) with
        | some source_step => .ok source_step.query_key
        | none => .error (.pubMedError
            ("Step " ++ toString (from_step.getD 0) ++ " not found in pipeline") none)
      else
        match m.steps.getLast? with
        | some last => .ok last.query_key
        | none => .error (.pubMedError "No previous steps in pipeline" none)
    match resolved with
    | .error e => (m, [], .error e)
    | .ok query_key =>
        let calls :=
          [NetworkCall.link from_db to_db "neighbor_history" query_key m.web_env link_name]
        let total_linked := (result.linksets.map (fun ls => ls.ids.length)).sum
        let new_query_key := toString (m.steps.length + 1)
        let counter := m.step_counter + 1
        let step : PipelineStep :=
          { step_number := counter, operation := "link", database := to_db,
            query_key := some new_query_key, result_count := total_linked,
            parameters := [("from_db", .str from_db),
              ("link_name", pyOfOptStr link_name),
              ("from_step", pyOfOptInt from_step)] }
        ({ m with steps := m.steps ++ [step], step_counter := counter },
          calls, .ok step)

/-- Result shape of `SessionManager.get_pipeline_summary`. -/
structure PipelineSummary where
  web_env : Option String
  total_steps : Nat
  steps : List PipelineStep
  final_result_count : Nat
  deriving Repr, DecidableEq

/-- `SessionManager.get_pipeline_summary`: read-only projection of the
session state; `final_result_count` is the last step's count, 0 with no
steps. -/
def SessionManager.get_pipeline_summary (m : SessionManager) : PipelineSummary :=
  { web_env := m.web_env, total_steps := m.steps.length, steps := m.steps,
    final_result_count :=
      match m.steps.getLast? with
      | some s => s.result_count
      | none => 0 }

/-- One session-manager operation together with the server reply injected
for the call it issues. -/
inductive SessionOp where
  | startOp (db query : String) (res : SearchResult)
  | searchOp (db query : String) (combine_with : Option String)
      (combine_operator : String) (res : SearchResult)
  | linkOp (from_db to_db : String) (link_name : Option String)
      (from_step : Option Int) (res : LinkResult)
  deriving Repr

/-- Dispatch of one operation against the current state. -/
def SessionManager.applyOp (m : SessionManager) :
    SessionOp → SessionManager × List NetworkCall × Except PyError PipelineStep
  | .startOp db q r => m.start_session db q r
  | .searchOp db q cw co r => m.add_search_step db q cw co r
  | .linkOp f t ln fs r => m.add_link_step f t ln fs r

/-- State reached after a sequence of operations (each call's outcome,
success or raised exception, leaves the state the Python object holds). -/
def SessionManager.runOps (m : SessionManager) (ops : List SessionOp) : SessionManager :=
  ops.foldl (fun m op => (m.applyOp op).1) m

/-- Consecutive numbering invariant: the steps are numbered 1, 2, …, n in
list order and the counter equals the step count. -/
def StepsNumbered (m : SessionManager) : Prop :=
  m.steps.map (fun s => s.step_number) = List.range' 1 m.steps.length ∧
  m.step_counter = m.steps.length

/-- Scenario of the step-numbering claim: a start, two further searches, one
link. -/
def demoOps : List SessionOp :=
  [.startOp "pubmed" "cancer" ⟨some "ENV1", some "1", 500⟩,
   .searchOp "pubmed" "therapy" none "AND" ⟨some "ENV1", some "2", 300⟩,
   .searchOp "pubmed" "review" (some "2") "AND" ⟨some "ENV1", some "3", 120⟩,
   .linkOp "pubmed" "pmc" none none ⟨[⟨[11, 12]⟩]⟩]

/-- An active session holding one search step, for concrete witnesses. -/
def activeManager : SessionManager :=
  { web_env := some "ENV1",
    steps := [⟨1, "search", "pubmed", some "1", 500, [("query", .str "cancer")]⟩],
    step_counter := 1 }

end PubmedMCP

namespace PubmedMCP

/-! ### Claims about the limiter and the retry policy -/

/-- C4: `acquire` at monotonic time `now` first refills `available` to
`min(capacity, available + (now - last_refill_instant) * capacity /
window_seconds)` and sets `last_refill_instant` to `now`; then, if
`available < 1`, it suspends for exactly `(1 - available) * window_seconds /
capacity` and sets `available` to 0, otherwise it decrements `available` by 1
immediately (no wait). The code's `acquire` coincides with this spec-side
description at every state and instant. -/
theorem acquire_meets_spec (rl : RateLimiter) (now : ℚ) :
    rl.acquire now = acquireSpec rl now := by
  unfold RateLimiter.acquire acquireSpec RateLimiter.refill
  simp only [mul_div_assoc]

/-- C5: the retry delay is the pure function `min(base_delay *
backoff_factor ^ attempt, max_delay)`; at the default configuration
(`base_delay=1`, `backoff_factor=2`, `max_delay=60`) it takes the values
1, 2, 4, 8 at attempts 0..3 and is capped at 60 by attempt 10. -/
theorem get_delay_formula_and_values :
    (∀ (rh : RetryHandler) (attempt : Nat),
      rh.get_delay attempt =
        min (rh.base_delay * rh.backoff_factor ^ attempt) rh.max_delay) ∧
    defaultRetryHandler.get_delay 0 = 1 ∧
    defaultRetryHandler.get_delay 1 = 2 ∧
    defaultRetryHandler.get_delay 2 = 4 ∧
    defaultRetryHandler.get_delay 3 = 8 ∧
    defaultRetryHandler.get_delay 10 = 60 := by
  refine ⟨fun rh attempt => rfl, ?_, ?_, ?_, ?_, ?_⟩ <;>
    norm_num [RetryHandler.get_delay, defaultRetryHandler]

/-- C6: with nonnegative capacity, positive window and nonnegative tokens,
every refill leaves `0 ≤ available ≤ capacity`; and the refilled value is
monotone in elapsed time: reading `available_tokens` at `t2 ≥ t1 ≥
last_update` gives at least the value at `t1` and never more than the
capacity. -/
theorem refill_bounds_and_monotone (rl : RateLimiter) (t1 t2 : ℚ)
    (hcap : 0 ≤ rl.max_requests) (hwin : 0 < rl.window)
    (htok : 0 ≤ rl.tokens) (h1 : rl.last_update ≤ t1) (h12 : t1 ≤ t2) :
    (0 ≤ (rl.refill t1).tokens ∧ (rl.refill t1).tokens ≤ rl.max_requests) ∧
    rl.available_tokens t1 ≤ rl.available_tokens t2 ∧
    rl.available_tokens t2 ≤ rl.max_requests := by
  have hrate : 0 ≤ rl.max_requests / rl.window :=
    div_nonneg hcap (le_of_lt hwin)
  have hx1 : 0 ≤ rl.tokens + (t1 - rl.last_update) * (rl.max_requests / rl.window) := by
    have : 0 ≤ (t1 - rl.last_update) * (rl.max_requests / rl.window) :=
      mul_nonneg (by linarith) hrate
    linarith
  refine ⟨⟨?_, ?_⟩, ?_, ?_⟩
  · exact le_min hcap hx1
  · exact min_le_left _ _
  · unfold RateLimiter.available_tokens
    refine min_le_min le_rfl ?_
    have : (t1 - rl.last_update) * (rl.max_requests / rl.window) ≤
        (t2 - rl.last_update) * (rl.max_requests / rl.window) :=
      mul_le_mul_of_nonneg_right (by linarith) hrate
    linarith
  · exact min_le_left _ _

/-- Witness for C6 at a concrete limiter (capacity 3, window 1, tokens 1/2,
last refill at 0) and instants 1 and 2. -/
theorem refill_bounds_and_monotone_witness :
    0 ≤ ((RateLimiter.mk 3 1 (1/2) 0).refill 1).tokens ∧
    ((RateLimiter.mk 3 1 (1/2) 0).refill 1).tokens ≤ 3 := by
  have h := refill_bounds_and_monotone (RateLimiter.mk 3 1 (1/2) 0) 1 2
    (by norm_num) (by norm_num) (by norm_num) (by norm_num) (by norm_num)
  exact h.1

/-! ### Claims about the request core -/

/-- C1 (code bug): on a 404 response the request loop does make exactly one
attempt (one limiter acquisition, no wait, no retry), for every retry
configuration; but the raised exception is the interpreter's `TypeError` from
constructing the `error_mapping` dict inside `map_http_status_to_error` — not
the documented not-found error carrying the truncated body — because the 400
entry passes `details=` to `InvalidQueryError.__init__`, which has no such
parameter. -/
theorem request_404_one_attempt_raises_type_error
    (rh : RetryHandler) (retry_on_rate_limit : Bool) :
    runRequest rh (fun _ => .response 404 none "no such record")
      retry_on_rate_limit =
    { acquires := 1, attempts := 1, waits := [],
      outcome := .error (.typeError
        "__init__ got an unexpected keyword argument details") } := by
  rfl

/-- C2 counterexample: with the default retry configuration against a first
attempt answering 429 with a server hint `Retry-After: 5`, the wait actually
performed before the next attempt is the backoff value `get_delay 0 = 1`, not
the server-supplied 5: the claim that the hint is honored during retries is
false. -/
theorem retry_wait_ignores_server_hint :
    (runRequest defaultRetryHandler transport429Then200 true).waits =
      [defaultRetryHandler.get_delay 0] ∧
    defaultRetryHandler.get_delay 0 ≠ 5 ∧
    (runRequest defaultRetryHandler transport429Then200 true).outcome = .ok 200 := by
  refine ⟨rfl, ?_, rfl⟩
  norm_num [RetryHandler.get_delay, defaultRetryHandler]

/-- C2 amended: on a 429 with retries remaining the request loop always waits
the exponential-backoff delay for the current attempt, ignoring any
server-supplied delay hint; when no retries remain it fails with a RateLimit
error whose suggested delay is the server's `Retry-After` value, defaulting
to 60 when the header is absent. -/
theorem rate_limit_backoff_and_terminal_hint :
    (∀ (rh : RetryHandler) (attempt : Nat) (hint : Option ℚ) (text : String),
      attempt < rh.max_retries →
      attemptStep rh true attempt (.response 429 hint text) =
        .retryAfterWait (rh.get_delay attempt)) ∧
    (∀ (rh : RetryHandler) (attempt : Nat) (hint : Option ℚ) (text : String),
      rh.max_retries ≤ attempt →
      attemptStep rh true attempt (.response 429 hint text) =
        .fail (.rateLimitError "Rate limit exceeded after retries"
          (some (hint.getD 60)))) := by
  constructor
  · intro rh attempt hint text h
    simp [attemptStep, h]
  · intro rh attempt hint text h
    simp [attemptStep, Nat.not_lt.mpr h]

/-- Witness for the amended C2 at concrete inputs: attempt 0 of the default
handler retries with delay 1 whatever the hint says; attempt 3 is terminal
and reports the server's hint 5. -/
theorem rate_limit_backoff_and_terminal_hint_witness :
    attemptStep defaultRetryHandler true 0 (.response 429 (some 5) "x") =
      .retryAfterWait (defaultRetryHandler.get_delay 0) ∧
    attemptStep defaultRetryHandler true 3 (.response 429 (some 5) "x") =
      .fail (.rateLimitError "Rate limit exceeded after retries" (some 5)) :=
  ⟨rate_limit_backoff_and_terminal_hint.1 defaultRetryHandler 0 (some 5) "x"
      (by decide),
    rate_limit_backoff_and_terminal_hint.2 defaultRetryHandler 3 (some 5) "x"
      (by decide)⟩

/-- C3: against a transport that always answers 503, a request core whose
retry handler allows 3 retries makes exactly 4 HTTP attempts (1 initial + 3
retries), acquires the rate limiter once per attempt (4 acquisitions), waits
the backoff delays of attempts 0, 1, 2 in between, and then fails with a
ServiceUnavailable error; there is never a fifth attempt. -/
theorem always_503_exactly_four_attempts
    (rh : RetryHandler) (transport : Nat → TransportResult)
    (hdr : Option ℚ) (text : String)
    (hmr : rh.max_retries = 3)
    (ht : ∀ n, transport n = .response 503 hdr text) :
    runRequest rh transport true =
    { acquires := 4, attempts := 4,
      waits := [rh.get_delay 0, rh.get_delay 1, rh.get_delay 2],
      outcome := .error (.serviceUnavailableError "Server error: 503"
        (some 60)) } := by
  simp [runRequest, requestGo, attemptStep, ht, hmr]
  rfl

/-- Witness for C3: the default handler (3 retries) against `transport503`. -/
theorem always_503_exactly_four_attempts_witness :
    runRequest defaultRetryHandler transport503 true =
    { acquires := 4, attempts := 4,
      waits := [defaultRetryHandler.get_delay 0, defaultRetryHandler.get_delay 1,
        defaultRetryHandler.get_delay 2],
      outcome := .error (.serviceUnavailableError "Server error: 503"
        (some 60)) } :=
  always_503_exactly_four_attempts defaultRetryHandler transport503
    none "Service Unavailable" rfl (fun _ => rfl)

/-! ### Claims about the session manager -/

/-- Effect of `start_session` on the step list and counter: either both are
untouched (validation failure) or exactly one step numbered `counter + 1` is
appended and the counter advances by one. -/
theorem start_session_effect (m : SessionManager) (db query : String)
    (r : SearchResult) :
    ((m.start_session db query r).1.steps = m.steps ∧
      (m.start_session db query r).1.step_counter = m.step_counter) ∨
    ∃ s, (m.start_session db query r).1.steps = m.steps ++ [s] ∧
      s.step_number = m.step_counter + 1 ∧
      (m.start_session db query r).1.step_counter = m.step_counter + 1 := by
  unfold SessionManager.start_session
  dsimp only
  split
  · exact .inl ⟨rfl, rfl⟩
  · exact .inr ⟨_, rfl, rfl, rfl⟩

/-- Effect of `add_search_step` on the step list and counter: unchanged, or
one step numbered `counter + 1` appended with the counter advanced. -/
theorem add_search_step_effect (m : SessionManager) (db query : String)
    (cw : Option String) (co : String) (r : SearchResult) :
    ((m.add_search_step db query cw co r).1.steps = m.steps ∧
      (m.add_search_step db query cw co r).1.step_counter = m.step_counter) ∨
    ∃ s, (m.add_search_step db query cw co r).1.steps = m.steps ++ [s] ∧
      s.step_number = m.step_counter + 1 ∧
      (m.add_search_step db query cw co r).1.step_counter = m.step_counter + 1 := by
  unfold SessionManager.add_search_step
  dsimp only
  split
  · exact start_session_effect m db query r
  · split
    · exact .inr ⟨_, rfl, rfl, rfl⟩
    · exact .inr ⟨_, rfl, rfl, rfl⟩

/-- Effect of `add_link_step` on the step list and counter: unchanged (any
guard failure), or one step numbered `counter + 1` appended with the counter
advanced. -/
theorem add_link_step_effect (m : SessionManager) (from_db to_db : String)
    (ln : Option String) (fs : Option Int) (r : LinkResult) :
    ((m.add_link_step from_db to_db ln fs r).1.steps = m.steps ∧
      (m.add_link_step from_db to_db ln fs r).1.step_counter = m.step_counter) ∨
    ∃ s, (m.add_link_step from_db to_db ln fs r).1.steps = m.steps ++ [s] ∧
      s.step_number = m.step_counter + 1 ∧
      (m.add_link_step from_db to_db ln fs r).1.step_counter = m.step_counter + 1 := by
  unfold SessionManager.add_link_step
  dsimp only
  split
  · exact .inl ⟨rfl, rfl⟩
  · split
    · exact .inl ⟨rfl, rfl⟩
    · exact .inr ⟨_, rfl, rfl, rfl⟩

/-- Effect of any operation on the step list and counter. -/
theorem applyOp_effect (m : SessionManager) (op : SessionOp) :
    ((m.applyOp op).1.steps = m.steps ∧
      (m.applyOp op).1.step_counter = m.step_counter) ∨
    ∃ s, (m.applyOp op).1.steps = m.steps ++ [s] ∧
      s.step_number = m.step_counter + 1 ∧
      (m.applyOp op).1.step_counter = m.step_counter + 1 := by
  cases op with
  | startOp db q r => exact start_session_effect m db q r
  | searchOp db q cw co r => exact add_search_step_effect m db q cw co r
  | linkOp f t ln fs r => exact add_link_step_effect m f t ln fs r

/-- Each operation preserves the consecutive-numbering invariant. -/
theorem stepsNumbered_applyOp (m : SessionManager) (op : SessionOp)
    (h : StepsNumbered m) : StepsNumbered (m.applyOp op).1 := by
  obtain ⟨h1, h2⟩ := h
  rcases applyOp_effect m op with ⟨hs, hc⟩ | ⟨s, hs, hn, hc⟩
  · exact ⟨by rw [hs]; exact h1, by rw [hc, hs]; exact h2⟩
  · constructor
    · rw [hs, List.map_append, List.length_append, h1]
      have hsn : s.step_number = 1 + m.steps.length := by omega
      simp [hsn, List.range'_concat]
    · rw [hc, hs, List.length_append, h2]
      simp

/-- Any operation sequence from an invariant-satisfying state preserves the
invariant. -/
theorem stepsNumbered_runOps (ops : List SessionOp) :
    ∀ m : SessionManager, StepsNumbered m → StepsNumbered (m.runOps ops) := by
  induction ops with
  | nil => exact fun m h => h
  | cons op rest ih =>
      intro m h
      exact ih _ (stepsNumbered_applyOp m op h)

/-- Running one more operation folds it onto the state reached so far. -/
theorem runOps_append_single (m : SessionManager) (ops : List SessionOp)
    (op : SessionOp) :
    m.runOps (ops ++ [op]) = ((m.runOps ops).applyOp op).1 := by
  simp [SessionManager.runOps, List.foldl_append]

/-- C7: from a fresh manager, any sequence of start/search/link operations
leaves the steps numbered 1, 2, …, n consecutively in list order; each
further operation only appends (never reorders or renumbers what is already
there); and the concrete scenario start + two searches + one link yields
steps numbered 1, 2, 3, 4 in that order. -/
theorem session_step_numbering :
    (∀ ops : List SessionOp,
      (SessionManager.initial.runOps ops).steps.map (fun s => s.step_number) =
        List.range' 1 (SessionManager.initial.runOps ops).steps.length) ∧
    (∀ (ops : List SessionOp) (op : SessionOp), ∃ tail,
      (SessionManager.initial.runOps (ops ++ [op])).steps =
        (SessionManager.initial.runOps ops).steps ++ tail) ∧
    (SessionManager.initial.runOps demoOps).steps.map (fun s => s.step_number) =
      [1, 2, 3, 4] := by
  refine ⟨?_, ?_, ?_⟩
  · intro ops
    exact (stepsNumbered_runOps ops SessionManager.initial ⟨rfl, rfl⟩).1
  · intro ops op
    rcases applyOp_effect (SessionManager.initial.runOps ops) op with
      ⟨hs, _⟩ | ⟨s, hs, _, _⟩
    · exact ⟨[], by rw [runOps_append_single, hs, List.append_nil]⟩
    · exact ⟨[s], by rw [runOps_append_single, hs]⟩
  · rfl

/-- C8 counterexample: `from_step = 0` names an absent step number (steps
are 1-based, and indeed no step of `activeManager` is numbered 0), yet the
call does not fail naming the missing step: the `if from_step:` truthiness
test treats 0 like `None`, so the call silently resolves the most recent
step's query key, issues a link network call, appends a new step and
succeeds — refuting the claim that every absent step reference is a hard
stop. -/
theorem add_link_step_step_zero_silently_links :
    activeManager.steps.find? (fun s => (s.step_number : Int) == 0) = none ∧
    activeManager.add_link_step "pubmed" "pmc" none (some 0) ⟨[⟨[11, 12]⟩]⟩ =
      (⟨some "ENV1",
        activeManager.steps ++ [⟨2, "link", "pmc", some "2", 2,
          [("from_db", .str "pubmed"), ("link_name", .none_),
            ("from_step", .int 0)]⟩], 2⟩,
       [NetworkCall.link "pubmed" "pmc" "neighbor_history" (some "1")
         (some "ENV1") none],
       .ok ⟨2, "link", "pmc", some "2", 2,
         [("from_db", .str "pubmed"), ("link_name", .none_),
           ("from_step", .int 0)]⟩) :=
  ⟨rfl, rfl⟩

/-- C8 amended: `add_link_step` on an idle manager fails at once with the
"no active session" usage error, making no network call and leaving the
state exactly as it was; on an active manager, naming an absent nonzero step
number fails at once with an error naming that step, again with no network
call and no state change; but `from_step = 0` — also an absent step number —
is swallowed by the Python truthiness test and the call instead silently
links from the most recent step, issuing a network call keyed by that step's
query key and appending a new step. -/
theorem add_link_step_guards_amended :
    (∀ (m : SessionManager) (from_db to_db : String) (ln : Option String)
        (fs : Option Int) (r : LinkResult),
      strTruthy m.web_env = false →
      m.add_link_step from_db to_db ln fs r =
        (m, [], .error (.pubMedError "Cannot add link step: no active session" none))) ∧
    (∀ (m : SessionManager) (from_db to_db : String) (ln : Option String)
        (n : Int) (r : LinkResult),
      strTruthy m.web_env = true → (n == 0) = false →
      m.steps.find? (fun s => (s.step_number : Int) == n) = none →
      m.add_link_step from_db to_db ln (some n) r =
        (m, [], .error (.pubMedError
          ("Step " ++ toString n ++ " not found in pipeline") none))) ∧
    (∀ (m : SessionManager) (from_db to_db : String) (ln : Option String)
        (r : LinkResult) (last : PipelineStep),
      strTruthy m.web_env = true →
      m.steps.getLast? = some last →
      ∃ step : PipelineStep,
        m.add_link_step from_db to_db ln (some 0) r =
          ({ m with
              steps := m.steps ++ [step],
              step_counter := m.step_counter + 1 },
            [NetworkCall.link from_db to_db "neighbor_history" last.query_key
              m.web_env ln],
            .ok step)) := by
  refine ⟨?_, ?_, ?_⟩
  · intro m from_db to_db ln fs r hidle
    simp [SessionManager.add_link_step, hidle]
  · intro m from_db to_db ln n r hactive hn0 hfind
    simp [SessionManager.add_link_step, hactive, intTruthy, hn0, hfind]
  · intro m from_db to_db ln r last hactive hlast
    refine ⟨⟨m.step_counter + 1, "link", to_db,
      some (toString (m.steps.length + 1)),
      (r.linksets.map (fun ls => ls.ids.length)).sum,
      [("from_db", .str from_db), ("link_name", pyOfOptStr ln),
        ("from_step", pyOfOptInt (some 0))]⟩, ?_⟩
    simp [SessionManager.add_link_step, hactive, hlast, intTruthy]

/-- Witness for the amended C8: the idle guard on a fresh manager, the
missing-step guard for the absent nonzero step 7 on an active manager
holding only step 1, and the silent last-step fallback at `from_step = 0` on
the same manager. -/
theorem add_link_step_guards_amended_witness :
    (SessionManager.initial.add_link_step "pubmed" "pmc" none none ⟨[]⟩ =
      (SessionManager.initial, [],
        .error (.pubMedError "Cannot add link step: no active session" none))) ∧
    (activeManager.add_link_step "pubmed" "pmc" none (some 7) ⟨[]⟩ =
      (activeManager, [],
        .error (.pubMedError "Step 7 not found in pipeline" none))) ∧
    ∃ step : PipelineStep,
      activeManager.add_link_step "pubmed" "pmc" none (some 0) ⟨[⟨[11, 12]⟩]⟩ =
        ({ activeManager with
            steps := activeManager.steps ++ [step],
            step_counter := activeManager.step_counter + 1 },
          [NetworkCall.link "pubmed" "pmc" "neighbor_history" (some "1")
            (some "ENV1") none],
          .ok step) :=
  ⟨add_link_step_guards_amended.1 SessionManager.initial "pubmed" "pmc"
      none none ⟨[]⟩ rfl,
    add_link_step_guards_amended.2.1 activeManager "pubmed" "pmc"
      none 7 ⟨[]⟩ rfl rfl rfl,
    add_link_step_guards_amended.2.2 activeManager "pubmed" "pmc"
      none ⟨[⟨[11, 12]⟩]⟩
      ⟨1, "search", "pubmed", some "1", 500, [("query", .str "cancer")]⟩
      rfl rfl⟩

/-- C9: a `start_session` whose injected search result carries a web_env but
no query key raises the session-start error yet mutates the manager:
`web_env` keeps the returned handle while the step list and counter stay
empty, so the failed start is not atomic, and a following `add_link_step`
passes the no-active-session guard and instead fails with "No previous steps
in pipeline". -/
theorem failed_start_session_not_atomic :
    ((SessionManager.initial.start_session "pubmed" "cancer"
        ⟨some "ENV1", none, 500⟩).2.2 =
      .error (.pubMedError "Failed to start session: no History data returned" none)) ∧
    (SessionManager.initial.start_session "pubmed" "cancer"
        ⟨some "ENV1", none, 500⟩).1.web_env = some "ENV1" ∧
    (SessionManager.initial.start_session "pubmed" "cancer"
        ⟨some "ENV1", none, 500⟩).1.steps = [] ∧
    (SessionManager.initial.start_session "pubmed" "cancer"
        ⟨some "ENV1", none, 500⟩).1.step_counter = 0 ∧
    ((SessionManager.initial.start_session "pubmed" "cancer"
        ⟨some "ENV1", none, 500⟩).1.add_link_step "pubmed" "pmc" none none ⟨[]⟩ =
      ((SessionManager.initial.start_session "pubmed" "cancer"
          ⟨some "ENV1", none, 500⟩).1, [],
        .error (.pubMedError "No previous steps in pipeline" none))) :=
  ⟨rfl, rfl, rfl, rfl, rfl⟩

/-- C10: `add_search_step` on an active session appends unconditionally: even
when the injected result has no query key, a step is appended whose
`query_key` is `None`, its `step_number` is still the incremented counter, it
carries the result's count, the call reports success, and the step shows up
in the pipeline summary. -/
theorem add_search_step_appends_unvalidated
    (m : SessionManager) (db query : String) (res : SearchResult)
    (hactive : strTruthy m.web_env = true) (hqk : res.query_key = none) :
    ∃ step : PipelineStep,
      (m.add_search_step db query none "AND" res).1.steps = m.steps ++ [step] ∧
      step.query_key = none ∧
      step.step_number = m.step_counter + 1 ∧
      step.result_count = res.count ∧
      (m.add_search_step db query none "AND" res).1.step_counter =
        m.step_counter + 1 ∧
      (m.add_search_step db query none "AND" res).2.2 = .ok step ∧
      (m.add_search_step db query none "AND" res).1.get_pipeline_summary.steps =
        m.steps ++ [step] := by
  refine ⟨⟨m.step_counter + 1, "search", db, none, res.count,
    [("query", .str query), ("combined_with", pyOfOptStr none),
      ("operator", .str "AND")]⟩, ?_⟩
  by_cases hw : strTruthy res.web_env = true
  · simp [SessionManager.add_search_step, hactive, hqk, hw,
      SessionManager.get_pipeline_summary]
  · simp [SessionManager.add_search_step, hactive, hqk,
      Bool.eq_false_iff.mpr hw, SessionManager.get_pipeline_summary]

/-- Witness for C10: an active manager receiving a result with no query key
(count 42). -/
theorem add_search_step_appends_unvalidated_witness :
    ∃ step : PipelineStep,
      (activeManager.add_search_step "pubmed" "immunology"
        none "AND" ⟨none, none, 42⟩).1.steps = activeManager.steps ++ [step] ∧
      step.query_key = none ∧
      step.step_number = activeManager.step_counter + 1 ∧
      step.result_count = 42 ∧
      (activeManager.add_search_step "pubmed" "immunology"
        none "AND" ⟨none, none, 42⟩).1.step_counter =
        activeManager.step_counter + 1 ∧
      (activeManager.add_search_step "pubmed" "immunology"
        none "AND" ⟨none, none, 42⟩).2.2 = .ok step ∧
      (activeManager.add_search_step "pubmed" "immunology"
        none "AND" ⟨none, none, 42⟩).1.get_pipeline_summary.steps =
        activeManager.steps ++ [step] :=
  add_search_step_appends_unvalidated activeManager "pubmed" "immunology"
    ⟨none, none, 42⟩ rfl rfl

end PubmedMCP
